import Mathlib

/-!
Verification development for the multi-agent pipeline repository.

The embedding below models, from the TypeScript source:
- the `TaskManager` task graph of the multi-agent orchestrator file
  (statuses, tasks, `addTask`, `updateTask`, `getTask`, `getAllTasks`,
  `getReadyTasks`, `getProgress`, `saveLog`);
- the `ParallelDevelopmentManager` (its `DevelopmentTask` record, the
  per-task promise built over session events, `executeTask` and the
  per-lane loop `executeTasksInSession`);
- `NextJsTestAutomation.sendAndWait` and `runFullTestCycle` from
  `examples/nextjs-test-automation.ts`;
- `runAgent` from the marketing-intel example file.

JavaScript `Map<string, Task>` is modelled as an insertion-ordered
association list; `Map.set` replaces in place, keeping the original
position, exactly as the ECMAScript `Map` does. `Date` values are
modelled as epoch milliseconds (`Nat`). `JSON.stringify` followed by
`JSON.parse` is modelled at the level of JSON trees: the text layer of
JSON is injective and is not re-modelled, while the behaviour that
matters for the logged snapshot (a `Date` serializes through
`toISOString` and is *not* revived on parse) is modelled faithfully.
-/

namespace SelfEvolvingPipeline

/-- Priority enumeration of the orchestrator `Task` interface:
"high" | "medium" | "low". -/
inductive Priority
  | high
  | medium
  | low
deriving DecidableEq, Repr

/-- The `assignedTo` field of the orchestrator `Task` interface:
"developer" | "tester". -/
inductive Assignee
  | developer
  | tester
deriving DecidableEq, Repr

/-- Status enumeration of the orchestrator `Task` interface:
"pending" | "in-progress" | "testing" | "completed" | "failed".
Note the source has no "ready", "dispatched", "running" or "timed_out"
status on this type. -/
inductive Status
  | pending
  | inProgress
  | testing
  | completed
  | failed
deriving DecidableEq, Repr

/-- The orchestrator `Task` interface. `startTime` and `endTime` are
JavaScript `Date` values, modelled as epoch milliseconds. -/
structure Task where
  id : String
  description : String
  priority : Priority
  assignedTo : Assignee
  status : Status
  dependencies : List String
  result : Option String := none
  startTime : Option Nat := none
  endTime : Option Nat := none
deriving DecidableEq, Repr

/-- The private `tasks: Map<string, Task>` of `TaskManager`, as an
insertion-ordered association list. -/
abbrev TaskMap := List (String × Task)

/-- ECMAScript `Map.prototype.get`. -/
def mapGet : TaskMap → String → Option Task
  | [], _ => none
  | (k', v') :: rest, k => if k' = k then some v' else mapGet rest k

/-- ECMAScript `Map.prototype.set`: replaces in place when the key is
present (keeping its position in iteration order), appends otherwise. -/
def mapSet : TaskMap → String → Task → TaskMap
  | [], k, v => [(k, v)]
  | (k', v') :: rest, k, v =>
      if k' = k then (k, v) :: rest else (k', v') :: mapSet rest k v

/-- `TaskManager.addTask(task)`: `this.tasks.set(task.id, task)` and then
`saveLog()`. The map update is modelled here; the log write is the pure
function `saveLog` below. There is no duplicate-id check and no cycle
check in the source. -/
def addTask (m : TaskMap) (t : Task) : TaskMap :=
  mapSet m t.id t

/-- A `Partial<Task>` argument of `TaskManager.updateTask`: a field is
`some v` when the key is present in the update object. -/
structure TaskUpdate where
  id : Option String := none
  description : Option String := none
  priority : Option Priority := none
  assignedTo : Option Assignee := none
  status : Option Status := none
  dependencies : Option (List String) := none
  result : Option String := none
  startTime : Option Nat := none
  endTime : Option Nat := none
deriving DecidableEq, Repr

/-- `Object.assign(task, updates)`: every key present in `updates`
overwrites the corresponding field of `task`, with no guard on the
current status of the task. -/
def applyUpdates (t : Task) (u : TaskUpdate) : Task :=
  { id := u.id.getD t.id
    description := u.description.getD t.description
    priority := u.priority.getD t.priority
    assignedTo := u.assignedTo.getD t.assignedTo
    status := u.status.getD t.status
    dependencies := u.dependencies.getD t.dependencies
    result := match u.result with
      | some r => some r
      | none => t.result
    startTime := match u.startTime with
      | some s => some s
      | none => t.startTime
    endTime := match u.endTime with
      | some e => some e
      | none => t.endTime }

/-- `TaskManager.updateTask(id, updates)`: looks the task up; if present,
`Object.assign`s the updates onto it (the map entry keeps its key and
position); if absent, silently does nothing — no error is raised. -/
def updateTask (m : TaskMap) (id : String) (u : TaskUpdate) : TaskMap :=
  match mapGet m id with
  | some t => mapSet m id (applyUpdates t u)
  | none => m

/-- `TaskManager.getTask(id)`. -/
def getTask (m : TaskMap) (id : String) : Option Task :=
  mapGet m id

/-- `TaskManager.getAllTasks()`: `Array.from(this.tasks.values())`, in map
insertion order. -/
def getAllTasks (m : TaskMap) : List Task :=
  m.map (fun p => p.2)

/-- The dependency test inside `getReadyTasks`:
`const dep = this.tasks.get(depId); return dep && dep.status === "completed"`. -/
def depCompleted (m : TaskMap) (depId : String) : Bool :=
  match mapGet m depId with
  | some dep => decide (dep.status = Status.completed)
  | none => false

/-- `TaskManager.getReadyTasks()`: filters `getAllTasks()` keeping the
tasks whose status is "pending" and whose dependencies all exist and are
"completed". The source applies no sorting of any kind: the result is in
map insertion order. -/
def getReadyTasks (m : TaskMap) : List Task :=
  (getAllTasks m).filter
    (fun t => decide (t.status = Status.pending) && t.dependencies.all (depCompleted m))

/-- The list of tasks `MultiAgentOrchestrator.executeDevelopmentTasks`
hands to `executeTask`:
`this.taskManager.getReadyTasks().filter(t => t.assignedTo === "developer")`. -/
def devDispatchList (m : TaskMap) : List Task :=
  (getReadyTasks m).filter (fun t => decide (t.assignedTo = Assignee.developer))

/-- `Math.round` on an exact rational, for nonnegative arguments:
`Math.round(x) = ⌊x + 1/2⌋`. -/
def mathRound (q : ℚ) : ℤ :=
  ⌊q + 1 / 2⌋

/-- The record returned by `TaskManager.getProgress()`. -/
structure Progress where
  total : Nat
  completed : Nat
  failed : Nat
  percentage : ℤ
deriving DecidableEq, Repr

/-- `TaskManager.getProgress()`: counts completed and failed tasks and
computes `total > 0 ? Math.round((completed / total) * 100) : 0`, with
JavaScript number arithmetic modelled as exact rational arithmetic. -/
def getProgress (m : TaskMap) : Progress :=
  let tasks := getAllTasks m
  let total := tasks.length
  let completed := (tasks.filter (fun t => decide (t.status = Status.completed))).length
  let failed := (tasks.filter (fun t => decide (t.status = Status.failed))).length
  { total := total
    completed := completed
    failed := failed
    percentage :=
      if 0 < total then mathRound (((completed : ℚ) / (total : ℚ)) * 100) else 0 }

/-! Session events and the waiting loops built over them.

A `SessionEvent` delivered to the `session.on` callbacks is one of
`assistant.message` (with `event.data.content`, possibly undefined),
`tool.execution_start`, `error` (with `event.data.message`, possibly
undefined) and `session.idle`. A waiting loop is modelled as a function
of the list of events delivered before the per-task timeout deadline;
an event list without a terminal event therefore means the `setTimeout`
rejection fires. -/

/-- One session event as consumed by the source callbacks. An `Option`
content models a possibly-undefined `event.data` field. -/
inductive SessionEv
  | message (content : Option String)
  | toolStart (toolName : String)
  | errorEv (message : Option String)
  | idle
deriving DecidableEq, Repr

/-- The promise body of `NextJsTestAutomation.sendAndWait`, processing
events in arrival order with accumulator `result`. On a message event the
source executes `result = event.data.content || ""` — an assignment that
*overwrites* `result`, keeping only the last message. On `error` it
rejects with the message, on `session.idle` it resolves with `result`,
and if no terminal event arrives the 10-minute timeout rejects with
"操作超時". -/
def sendAndWaitFrom (result : String) : List SessionEv → Except String String
  | [] => Except.error "操作超時"
  | SessionEv.message c :: rest => sendAndWaitFrom (c.getD "") rest
  | SessionEv.toolStart _ :: rest => sendAndWaitFrom result rest
  | SessionEv.errorEv m :: _ => Except.error (m.getD "執行錯誤")
  | SessionEv.idle :: _ => Except.ok result

/-- `NextJsTestAutomation.sendAndWait(session, prompt)`, as a function of
the events delivered before the timeout deadline. -/
def sendAndWait (events : List SessionEv) : Except String String :=
  sendAndWaitFrom "" events

/-- The waiting loop of `runAgent` in the marketing-intel file: on each
message it appends `` `${event.data.content}\n` `` to `output` (an
undefined content renders as the string "undefined"), resolves on
`session.idle` with `output`, and ignores every other event; `runAgent`
then returns `output.trim()` as the raw result. There is no timeout and
no error handling here, so an event list without `idle` yields `none`. -/
def runAgentFrom (output : String) : List SessionEv → Option String
  | [] => none
  | SessionEv.message c :: rest => runAgentFrom (output ++ c.getD "undefined" ++ "\n") rest
  | SessionEv.idle :: _ => some output.trim
  | SessionEv.toolStart _ :: rest => runAgentFrom output rest
  | SessionEv.errorEv _ :: rest => runAgentFrom output rest

/-- The `raw` field of the `AgentOutput` returned by `runAgent`. -/
def runAgentRaw (events : List SessionEv) : Option String :=
  runAgentFrom "" events

/-- A list of `assistant.message` events with the given contents. -/
def msgEvents (cs : List String) : List SessionEv :=
  cs.map (fun s => SessionEv.message (some s))

/-- The `type` field of `DevelopmentTask` in the parallel-development
file: "frontend" | "backend" | "database" | "testing". -/
inductive DevType
  | frontend
  | backend
  | database
  | testing
deriving DecidableEq, Repr

/-- The `status` field of `DevelopmentTask`:
"pending" | "running" | "completed" | "failed". The source enumeration
has no "timed_out" member. -/
inductive DevStatus
  | pending
  | running
  | completed
  | failed
deriving DecidableEq, Repr

/-- The `DevelopmentTask` interface of the parallel-development file. -/
structure DevelopmentTask where
  id : String
  type : DevType
  description : String
  files : List String
  status : DevStatus
  output : Option String := none
  error : Option String := none
deriving DecidableEq, Repr

/-- The promise body of `ParallelDevelopmentManager.executeTask`: it
*accumulates* message content (`output += event.data.content || ""`),
rejects on an `error` event with its message (or "執行錯誤"), resolves
with the accumulated output on `session.idle`, and rejects with
"任務執行超時" when the 5-minute timeout elapses before a terminal
event — modelled as the event list being exhausted. -/
def taskPromiseFrom (output : String) : List SessionEv → Except String String
  | [] => Except.error "任務執行超時"
  | SessionEv.message c :: rest => taskPromiseFrom (output ++ c.getD "") rest
  | SessionEv.errorEv m :: _ => Except.error (m.getD "執行錯誤")
  | SessionEv.idle :: _ => Except.ok output
  | SessionEv.toolStart _ :: rest => taskPromiseFrom output rest

/-- `ParallelDevelopmentManager.executeTask(session, task, sessionType)`:
sets the task to "running", awaits the promise above, then on success
sets status "completed" with the output, and in the `catch` branch sets
status "failed" with the error message. (In the source the promise is
awaited *before* `session.send` is called, so in an actual run no event
is ever delivered and every task ends in the timeout branch; the events
are still modelled as a parameter so the handler is covered in full.) -/
def executeDevTask (t : DevelopmentTask) (events : List SessionEv) : DevelopmentTask :=
  match taskPromiseFrom "" events with
  | Except.ok out => { t with status := DevStatus.completed, output := some out }
  | Except.error e => { t with status := DevStatus.failed, error := some e }

/-- `ParallelDevelopmentManager.executeTasksInSession`: a sequential
`for` loop over the lane's queued tasks, each executed by
`executeDevTask`, whose internal `try/catch` prevents one failure from
stopping the lane — so the loop is a `map`. Each task is paired with the
events its execution receives. -/
def executeTasksInSession (ps : List (DevelopmentTask × List SessionEv)) : List DevelopmentTask :=
  ps.map (fun p => executeDevTask p.1 p.2)

/-- Terminal session events: `error` and `session.idle`. An event list
with no terminal event models an execution that hits the timeout. -/
def isTerminalEv : SessionEv → Bool
  | SessionEv.errorEv _ => true
  | SessionEv.idle => true
  | _ => false

/-- The aggregate counts of a `TestReport` in
`examples/nextjs-test-automation.ts` (the per-test list and coverage are
not needed by the claims). -/
structure TestReport where
  totalTests : Nat
  passed : Nat
  failed : Nat
  skipped : Nat
deriving DecidableEq, Repr

/-- The value returned by `NextJsTestAutomation.runFullTestCycle`
(`success` and the final stats; the prose report text is out of scope). -/
structure CycleResult where
  success : Bool
  stats : TestReport
deriving DecidableEq, Repr

/-- `NextJsTestAutomation.runFullTestCycle`: runs the test suite once;
if the report has failures it calls `fixFailedTests` once and re-runs the
suite exactly once; then it returns `success: report.failed === 0` with
the last report. `runs k` is the report produced by the `(k+1)`-th call
of `runTests()` (the fix step's effect is reflected in `runs 1`). There
is no loop and no iteration bound in the source. -/
def runFullTestCycle (runs : Nat → TestReport) : CycleResult :=
  let report0 := runs 0
  if 0 < report0.failed then
    let report1 := runs 1
    { success := report1.failed == 0, stats := report1 }
  else
    { success := report0.failed == 0, stats := report0 }

/-- How many times `runFullTestCycle` invokes `runTests()`. -/
def numTestRuns (runs : Nat → TestReport) : Nat :=
  if 0 < (runs 0).failed then 2 else 1

/-! The persisted task-log snapshot: `saveLog` writes
`JSON.stringify({ timestamp: new Date().toISOString(), tasks: [...] })`,
overwriting the log file. JSON trees and in-memory JavaScript values are
modelled below to settle the reload round trip. -/

/-- A JSON document tree (what is written to and re-read from the log
file; numbers in the log are integers). -/
inductive JVal
  | jnull
  | jbool (b : Bool)
  | jnum (n : Int)
  | jstr (s : String)
  | jarr (xs : List JVal)
  | jobj (fs : List (String × JVal))
deriving Repr

/-- An in-memory JavaScript value, including `undefined` and `Date`
(epoch milliseconds). -/
inductive JsVal
  | vundef
  | vnull
  | vbool (b : Bool)
  | vnum (n : Int)
  | vstr (s : String)
  | vdate (ms : Nat)
  | varr (xs : List JsVal)
  | vobj (fs : List (String × JsVal))
deriving Repr

/-- Zero-padding to two digits, as in ISO-8601 date fields. -/
def pad2 (n : Nat) : String :=
  (if n < 10 then "0" else "") ++ toString n

/-- Zero-padding to three digits, for the milliseconds field. -/
def pad3 (n : Nat) : String :=
  (if n < 10 then "00" else if n < 100 then "0" else "") ++ toString n

/-- Zero-padding to four digits, for the year field. -/
def pad4 (n : Nat) : String :=
  (if n < 10 then "000" else if n < 100 then "00" else if n < 1000 then "0" else "") ++ toString n

/-- Proleptic Gregorian civil date (year, month, day) from a count of
days since 1970-01-01, for nonnegative day counts (the standard
era-based algorithm used to implement calendar conversions). -/
def civilFromDays (z0 : Nat) : Nat × Nat × Nat :=
  let z := z0 + 719468
  let era := z / 146097
  let doe := z % 146097
  let yoe := (doe - doe / 1460 + doe / 36524 - doe / 146096) / 365
  let y := yoe + era * 400
  let doy := doe - (365 * yoe + yoe / 4 - yoe / 100)
  let mp := (5 * doy + 2) / 153
  let d := doy - (153 * mp + 2) / 5 + 1
  let mo := if mp < 10 then mp + 3 else mp - 9
  (if mo ≤ 2 then y + 1 else y, mo, d)

/-- `Date.prototype.toISOString` for an epoch-milliseconds value:
"YYYY-MM-DDTHH:mm:ss.sssZ". This models the JavaScript builtin used both
for the log timestamp and for `Date` fields under `JSON.stringify`. -/
def toISOString (ms : Nat) : String :=
  let days := ms / 86400000
  let rem := ms % 86400000
  let ymd := civilFromDays days
  let hh := rem / 3600000
  let mi := rem % 3600000 / 60000
  let ss := rem % 60000 / 1000
  let msec := rem % 1000
  pad4 ymd.1 ++ "-" ++ pad2 ymd.2.1 ++ "-" ++ pad2 ymd.2.2 ++ "T" ++
    pad2 hh ++ ":" ++ pad2 mi ++ ":" ++ pad2 ss ++ "." ++ pad3 msec ++ "Z"

mutual

/-- `JSON.stringify` at tree level: a `Date` serializes through its
`toJSON`, i.e. as the `toISOString` string; `undefined` inside an array
becomes `null`; `undefined` object values drop the key. -/
def jsToJson : JsVal → JVal
  | JsVal.vundef => JVal.jnull
  | JsVal.vnull => JVal.jnull
  | JsVal.vbool b => JVal.jbool b
  | JsVal.vnum n => JVal.jnum n
  | JsVal.vstr s => JVal.jstr s
  | JsVal.vdate ms => JVal.jstr (toISOString ms)
  | JsVal.varr xs => JVal.jarr (jsListToJson xs)
  | JsVal.vobj fs => JVal.jobj (jsFieldsToJson fs)

/-- Element-wise `JSON.stringify` of an array. -/
def jsListToJson : List JsVal → List JVal
  | [] => []
  | x :: xs => jsToJson x :: jsListToJson xs

/-- Field-wise `JSON.stringify` of an object: keys with `undefined`
values are omitted. -/
def jsFieldsToJson : List (String × JsVal) → List (String × JVal)
  | [] => []
  | (_, JsVal.vundef) :: fs => jsFieldsToJson fs
  | (k, v) :: fs => (k, jsToJson v) :: jsFieldsToJson fs

end

mutual

/-- `JSON.parse` at tree level: plain data comes back as written, and in
particular a string stays a string — there is no `Date` revival. -/
def jsonToJs : JVal → JsVal
  | JVal.jnull => JsVal.vnull
  | JVal.jbool b => JsVal.vbool b
  | JVal.jnum n => JsVal.vnum n
  | JVal.jstr s => JsVal.vstr s
  | JVal.jarr xs => JsVal.varr (jsonListToJs xs)
  | JVal.jobj fs => JsVal.vobj (jsonFieldsToJs fs)

/-- Element-wise `JSON.parse` of an array. -/
def jsonListToJs : List JVal → List JsVal
  | [] => []
  | x :: xs => jsonToJs x :: jsonListToJs xs

/-- Field-wise `JSON.parse` of an object. -/
def jsonFieldsToJs : List (String × JVal) → List (String × JsVal)
  | [] => []
  | (k, v) :: fs => (k, jsonToJs v) :: jsonFieldsToJs fs

end

/-- Writing a value to the log with `JSON.stringify` and reading it back
with `JSON.parse` (the JSON text layer is injective, so the composition
is modelled directly on trees). -/
def roundTrip (v : JsVal) : JsVal :=
  jsonToJs (jsToJson v)

/-- The JSON string of a `priority` value. -/
def priorityStr : Priority → String
  | Priority.high => "high"
  | Priority.medium => "medium"
  | Priority.low => "low"

/-- The JSON string of an `assignedTo` value. -/
def assigneeStr : Assignee → String
  | Assignee.developer => "developer"
  | Assignee.tester => "tester"

/-- The JSON string of a `status` value. -/
def statusStr : Status → String
  | Status.pending => "pending"
  | Status.inProgress => "in-progress"
  | Status.testing => "testing"
  | Status.completed => "completed"
  | Status.failed => "failed"

/-- An optional object field: present exactly when the value is set. -/
def optJsField (k : String) (v : Option JsVal) : List (String × JsVal) :=
  match v with
  | some x => [(k, x)]
  | none => []

/-- The in-memory JavaScript object of a `Task` as held in the
`TaskManager` map: mandatory fields in interface order, optional fields
present only once assigned, `Date` fields as `Date` objects. -/
def taskToJs (t : Task) : JsVal :=
  JsVal.vobj
    ([("id", JsVal.vstr t.id),
      ("description", JsVal.vstr t.description),
      ("priority", JsVal.vstr (priorityStr t.priority)),
      ("assignedTo", JsVal.vstr (assigneeStr t.assignedTo)),
      ("status", JsVal.vstr (statusStr t.status)),
      ("dependencies", JsVal.varr (t.dependencies.map JsVal.vstr))]
     ++ optJsField "result" (t.result.map JsVal.vstr)
     ++ optJsField "startTime" (t.startTime.map JsVal.vdate)
     ++ optJsField "endTime" (t.endTime.map JsVal.vdate))

/-- The value obtained when a logged `Task` is read back from the
snapshot: identical to `taskToJs` except that each `Date` field has
become its ISO-8601 string. -/
def taskToJsLoaded (t : Task) : JsVal :=
  JsVal.vobj
    ([("id", JsVal.vstr t.id),
      ("description", JsVal.vstr t.description),
      ("priority", JsVal.vstr (priorityStr t.priority)),
      ("assignedTo", JsVal.vstr (assigneeStr t.assignedTo)),
      ("status", JsVal.vstr (statusStr t.status)),
      ("dependencies", JsVal.varr (t.dependencies.map JsVal.vstr))]
     ++ optJsField "result" (t.result.map JsVal.vstr)
     ++ optJsField "startTime" (t.startTime.map (fun ms => JsVal.vstr (toISOString ms)))
     ++ optJsField "endTime" (t.endTime.map (fun ms => JsVal.vstr (toISOString ms))))

/-- `TaskManager.saveLog()`: overwrites the log file with
`{ timestamp: new Date().toISOString(), tasks: Array.from(this.tasks.values()) }`.
The written document is a pure function of the clock and the *current*
map — a point-in-time mirror, independent of any earlier log contents. -/
def saveLog (now : Nat) (m : TaskMap) : JVal :=
  JVal.jobj
    [("timestamp", JVal.jstr (toISOString now)),
     ("tasks", JVal.jarr ((getAllTasks m).map (fun t => jsToJson (taskToJs t))))]

/-- Whether an in-memory object has a `Date` value at the given key. -/
def isDateVal : JsVal → Bool
  | JsVal.vdate _ => true
  | _ => false

/-- Observer used to separate a `Date`-carrying object from its reloaded
form. -/
def hasDateField (v : JsVal) (k : String) : Bool :=
  match v with
  | JsVal.vobj fs => fs.any (fun p => decide (p.1 = k) && isDateVal p.2)
  | _ => false

/-- Rank of a priority for the spec ordering high → medium → low. -/
def prioRank : Priority → Nat
  | Priority.high => 0
  | Priority.medium => 1
  | Priority.low => 2

/-- Whether a task sequence is ordered by priority (high first), as the
spec requires of `readyTasks()`. -/
def priorityOrderedB (l : List Task) : Bool :=
  (l.zip l.tail).all (fun p => decide (prioRank p.1.priority ≤ prioRank p.2.priority))

/-- Shorthand for building concrete tasks in concrete scenarios. -/
def mkTask (id : String) (p : Priority) (a : Assignee) (s : Status)
    (deps : List String) : Task :=
  { id := id, description := id, priority := p, assignedTo := a,
    status := s, dependencies := deps }

/-! Concrete scenario data used by counterexamples and witnesses. -/

/-- A completed prerequisite task. -/
def w1A : Task := mkTask "A" Priority.high Assignee.developer Status.completed []

/-- A pending task depending on `w1A`. -/
def w1B : Task := mkTask "B" Priority.medium Assignee.developer Status.pending ["A"]

/-- A two-task graph in which `w1B` is ready. -/
def w1map : TaskMap := addTask (addTask [] w1A) w1B

/-- A task holding the id "T1". -/
def c2orig : Task := mkTask "T1" Priority.high Assignee.developer Status.pending []

/-- A different task reusing the id "T1". -/
def c2dup : Task :=
  { mkTask "T1" Priority.low Assignee.tester Status.pending [] with
    description := "duplicate of T1" }

/-- A graph already containing id "T1". -/
def c2map : TaskMap := addTask [] c2orig

/-- One half of a two-cycle: "A" depends on "B". -/
def c2cycA : Task := mkTask "A" Priority.high Assignee.developer Status.pending ["B"]

/-- Other half of the two-cycle: "B" depends on "A". -/
def c2cycB : Task := mkTask "B" Priority.high Assignee.developer Status.pending ["A"]

/-- A low-priority ready task inserted first. -/
def c3low : Task := mkTask "L" Priority.low Assignee.developer Status.pending []

/-- A high-priority ready task inserted second. -/
def c3high : Task := mkTask "H" Priority.high Assignee.developer Status.pending []

/-- A graph whose ready set holds a low-priority task before a
high-priority one in insertion order. -/
def c3map : TaskMap := addTask (addTask [] c3low) c3high

/-- A task already in the terminal status "completed". -/
def c4done : Task := mkTask "T1" Priority.high Assignee.developer Status.completed []

/-- An update that rewrites the status and result of a terminal task. -/
def c4upd : TaskUpdate :=
  { status := some Status.failed, result := some "mutated after terminal" }

/-- A graph holding only the completed task. -/
def c4map : TaskMap := [("T1", c4done)]

/-- A task already in the terminal status "failed". -/
def c4failed : Task := mkTask "T2" Priority.high Assignee.developer Status.failed []

/-- An in-place retry-style update of a failed task. -/
def c4upd2 : TaskUpdate := { status := some Status.inProgress }

/-- A graph holding only the failed task. -/
def c4map2 : TaskMap := [("T2", c4failed)]

/-- A single-task graph for the unknown-id scenario. -/
def c5task : Task := mkTask "T1" Priority.high Assignee.developer Status.pending []

/-- The graph for the unknown-id scenario. -/
def c5map : TaskMap := [("T1", c5task)]

/-- An update aimed at an id absent from the graph. -/
def c5upd : TaskUpdate := { status := some Status.completed }

/-- A queued development task used in the timeout scenarios. -/
def c6task : DevelopmentTask :=
  { id := "FE-001", type := DevType.frontend, description := "login page",
    files := ["src/components/LoginPage.tsx"], status := DevStatus.pending }

/-- A one-task lane whose only execution delivers no event before the
timeout. -/
def c6lane : List (DevelopmentTask × List SessionEv) := [(c6task, [])]

/-- Successive test reports: 2 failures, then 1, then 0 — convergence
would need two fix passes. -/
def c7runs : Nat → TestReport := fun k =>
  if k = 0 then { totalTests := 3, passed := 1, failed := 2, skipped := 0 }
  else if k = 1 then { totalTests := 3, passed := 2, failed := 1, skipped := 0 }
  else { totalTests := 3, passed := 3, failed := 0, skipped := 0 }

/-- A logged task carrying `Date` fields. -/
def c9task : Task :=
  { id := "T1", description := "auth module", priority := Priority.high,
    assignedTo := Assignee.developer, status := Status.completed,
    dependencies := ["T0"], result := some "done",
    startTime := some 0, endTime := some 61000 }

/-- A logged task with no `Date` field set. -/
def c9plain : Task := mkTask "T2" Priority.low Assignee.tester Status.pending []

/-- First completed task of the progress scenario. -/
def c10a : Task := mkTask "A" Priority.high Assignee.developer Status.completed []

/-- Second completed task of the progress scenario. -/
def c10b : Task := mkTask "B" Priority.medium Assignee.developer Status.completed []

/-- Failed task of the progress scenario. -/
def c10c : Task := mkTask "C" Priority.low Assignee.tester Status.failed []

/-- A 3-task graph: 2 completed, 1 failed. -/
def c10map : TaskMap := addTask (addTask (addTask [] c10a) c10b) c10c

/-! Helper lemmas shared by the claim theorems. -/

/-- Looking up the key just set returns the value just set. -/
theorem mapGet_mapSet_self (m : TaskMap) (k : String) (v : Task) :
    mapGet (mapSet m k v) k = some v := by
  induction m with
  | nil => simp [mapSet, mapGet]
  | cons p rest ih =>
      obtain ⟨k0, v0⟩ := p
      by_cases h : k0 = k
      · simp [mapSet, mapGet, h]
      · simp [mapSet, mapGet, h, ih]

/-- Setting one key leaves every other key unchanged. -/
theorem mapGet_mapSet_other (m : TaskMap) (k k' : String) (v : Task) (h : k' ≠ k) :
    mapGet (mapSet m k v) k' = mapGet m k' := by
  induction m with
  | nil => simp [mapSet, mapGet, Ne.symm h]
  | cons p rest ih =>
      obtain ⟨k0, v0⟩ := p
      by_cases h0 : k0 = k
      · subst h0
        simp [mapSet, mapGet, Ne.symm h]
      · simp [mapSet, mapGet, h0, ih]

/-- Membership characterization of `getReadyTasks`: exactly the pending
tasks of the graph all of whose dependencies exist and are completed. -/
theorem mem_getReadyTasks_iff (m : TaskMap) (t : Task) :
    t ∈ getReadyTasks m ↔
      (t ∈ getAllTasks m ∧ t.status = Status.pending ∧
       ∀ d ∈ t.dependencies,
         ∃ dep, getTask m d = some dep ∧ dep.status = Status.completed) := by
  constructor
  · intro ht
    rw [getReadyTasks, List.mem_filter] at ht
    obtain ⟨hmem, hcond⟩ := ht
    rw [Bool.and_eq_true] at hcond
    obtain ⟨h1, h2⟩ := hcond
    refine ⟨hmem, by simpa using h1, ?_⟩
    intro d hd
    have h3 := List.all_eq_true.mp h2 d hd
    unfold depCompleted at h3
    cases hg : mapGet m d with
    | none => rw [hg] at h3; simp at h3
    | some dep =>
        rw [hg] at h3
        exact ⟨dep, hg, by simpa using h3⟩
  · rintro ⟨hmem, hstat, hdeps⟩
    rw [getReadyTasks, List.mem_filter]
    refine ⟨hmem, ?_⟩
    rw [Bool.and_eq_true]
    refine ⟨by simpa using hstat, ?_⟩
    rw [List.all_eq_true]
    intro d hd
    obtain ⟨dep, hg, hc⟩ := hdeps d hd
    unfold depCompleted
    rw [show mapGet m d = some dep from hg]
    simpa using hc

/-- A promise whose event list has no terminal event rejects with the
timeout error, whatever has been accumulated so far. -/
theorem taskPromiseFrom_no_terminal :
    ∀ evs : List SessionEv, evs.all (fun e => !isTerminalEv e) = true →
      ∀ out : String, taskPromiseFrom out evs = Except.error "任務執行超時" := by
  intro evs
  induction evs with
  | nil => intro _ out; rfl
  | cons e rest ih =>
      intro h out
      rw [List.all_cons, Bool.and_eq_true] at h
      obtain ⟨he, hrest⟩ := h
      cases e with
      | message c => simpa [taskPromiseFrom] using ih hrest (out ++ c.getD "")
      | toolStart n => simpa [taskPromiseFrom] using ih hrest out
      | errorEv msg => simp [isTerminalEv] at he
      | idle => simp [isTerminalEv] at he

/-- `sendAndWait` on messages followed by idle resolves with the last
content (with the accumulator as fallback). -/
theorem sendAndWaitFrom_msgs_idle :
    ∀ (cs : List String) (r : String),
      sendAndWaitFrom r (msgEvents cs ++ [SessionEv.idle])
        = Except.ok (cs.getLast?.getD r) := by
  intro cs
  induction cs with
  | nil => intro r; rfl
  | cons c rest ih =>
      intro r
      have hstep : sendAndWaitFrom r (msgEvents (c :: rest) ++ [SessionEv.idle])
          = sendAndWaitFrom c (msgEvents rest ++ [SessionEv.idle]) := by
        simp [msgEvents, sendAndWaitFrom]
      rw [hstep, ih c]
      cases rest with
      | nil => rfl
      | cons c2 rest2 =>
          rw [List.getLast?_cons_cons]
          cases hL : (c2 :: rest2).getLast? with
          | none => simp at hL
          | some x => rfl

/-- `sendAndWait` on messages followed by an error event rejects with the
error message. -/
theorem sendAndWaitFrom_msgs_error :
    ∀ (cs : List String) (r e : String),
      sendAndWaitFrom r (msgEvents cs ++ [SessionEv.errorEv (some e)])
        = Except.error e := by
  intro cs
  induction cs with
  | nil => intro r e; rfl
  | cons c rest ih => intro r e; simpa [msgEvents, sendAndWaitFrom] using ih c e

/-- The `runAgent` loop accumulates every message content followed by a
newline and resolves with the trimmed accumulation on idle. -/
theorem runAgentFrom_msgs_idle :
    ∀ (cs : List String) (acc : String),
      runAgentFrom acc (msgEvents cs ++ [SessionEv.idle])
        = some (String.trim (cs.foldl (fun a s => a ++ s ++ "\n") acc)) := by
  intro cs
  induction cs with
  | nil => intro acc; rfl
  | cons c rest ih =>
      intro acc
      simpa [msgEvents, runAgentFrom] using ih (acc ++ c ++ "\n")

/-- Round trip of an array of strings through stringify and parse. -/
theorem jsonListToJs_jsListToJson_str (ss : List String) :
    jsonListToJs (jsListToJson (ss.map JsVal.vstr)) = ss.map JsVal.vstr := by
  induction ss with
  | nil => rfl
  | cons s rest ih => simp [jsListToJson, jsToJson, jsonListToJs, jsonToJs, ih]

/-! Claim theorems. -/

/-- Claim C1 (confirmed): dependency safety. The tasks the orchestrator
hands to `executeTask` in `executeDevelopmentTasks` are drawn from
`getReadyTasks()` (so are members of it), and every member of
`getReadyTasks()` is a pending task each of whose dependency ids resolves
to a task whose status is completed. -/
theorem getReadyTasks_dependency_safety :
    (∀ (m : TaskMap) (t : Task), t ∈ devDispatchList m → t ∈ getReadyTasks m) ∧
    (∀ (m : TaskMap) (t : Task), t ∈ getReadyTasks m →
      t.status = Status.pending ∧
      ∀ d ∈ t.dependencies,
        ∃ dep, getTask m d = some dep ∧ dep.status = Status.completed) := by
  constructor
  · intro m t ht
    exact List.mem_of_mem_filter ht
  · intro m t ht
    exact ((mem_getReadyTasks_iff m t).mp ht).2

/-- Witness for C1: in the graph where "A" is completed and "B" depends
on "A", task "B" is ready and the theorem yields its dependency safety. -/
theorem getReadyTasks_dependency_safety_witness :
    w1B ∈ getReadyTasks w1map ∧
    (w1B.status = Status.pending ∧
     ∀ d ∈ w1B.dependencies,
       ∃ dep, getTask w1map d = some dep ∧ dep.status = Status.completed) :=
  ⟨by decide, getReadyTasks_dependency_safety.2 w1map w1B (by decide)⟩

/-- Claim C2 (corrected, counterexample): `addTask` does not fail on a
duplicate id — it silently overwrites the existing "T1" task, so the
pre-existing task set is not preserved — and it does not fail on a cycle:
the mutually-dependent pair "A" ⇄ "B" is inserted without any error. -/
theorem addTask_no_duplicate_or_cycle_check_cex :
    addTask c2map c2dup = [("T1", c2dup)] ∧
    getTask (addTask c2map c2dup) "T1" = some c2dup ∧
    c2dup ≠ c2orig ∧
    addTask (addTask [] c2cycA) c2cycB = [("A", c2cycA), ("B", c2cycB)] := by
  decide

/-- Claim C2 (corrected, amended): `addTask(task)` never fails: it
unconditionally stores the task under its id (replacing in place any
existing task with that id) and leaves every other id untouched; no
duplicate-id or cycle check exists. -/
theorem addTask_unconditional_insert :
    ∀ (m : TaskMap) (t : Task),
      getTask (addTask m t) t.id = some t ∧
      ∀ k : String, k ≠ t.id → getTask (addTask m t) k = getTask m k := by
  intro m t
  refine ⟨mapGet_mapSet_self m t.id t, ?_⟩
  intro k hk
  exact mapGet_mapSet_other m t.id k t hk

/-- Witness for the amended C2 at a concrete graph and a distinct key. -/
theorem addTask_unconditional_insert_witness :
    getTask (addTask c2map c2dup) c2dup.id = some c2dup ∧
    "X" ≠ c2dup.id ∧
    getTask (addTask c2map c2dup) "X" = getTask c2map "X" :=
  ⟨(addTask_unconditional_insert c2map c2dup).1, by decide,
   (addTask_unconditional_insert c2map c2dup).2 "X" (by decide)⟩

/-- Claim C3 (corrected, counterexample): `getReadyTasks` applies no
priority ordering. With a low-priority ready task inserted before a
high-priority one, the returned sequence is low before high. -/
theorem getReadyTasks_priority_order_cex :
    (getReadyTasks c3map).map (fun t => t.priority) = [Priority.low, Priority.high] ∧
    priorityOrderedB (getReadyTasks c3map) = false := by
  decide

/-- Claim C3 (corrected, amended): `getReadyTasks()` returns exactly the
pending tasks of the graph all of whose dependencies exist and are
completed, in map insertion order (a sublist of `getAllTasks()`), with no
priority sorting. -/
theorem getReadyTasks_insertion_order :
    ∀ m : TaskMap,
      (getReadyTasks m).Sublist (getAllTasks m) ∧
      ∀ t : Task, t ∈ getReadyTasks m ↔
        (t ∈ getAllTasks m ∧ t.status = Status.pending ∧
         ∀ d ∈ t.dependencies,
           ∃ dep, getTask m d = some dep ∧ dep.status = Status.completed) := by
  intro m
  exact ⟨List.filter_sublist _, fun t => mem_getReadyTasks_iff m t⟩

/-- Witness for the amended C3 at the two-task scenario graph. -/
theorem getReadyTasks_insertion_order_witness :
    (getReadyTasks c3map).Sublist (getAllTasks c3map) ∧
    (c3low ∈ getReadyTasks c3map ↔
      (c3low ∈ getAllTasks c3map ∧ c3low.status = Status.pending ∧
       ∀ d ∈ c3low.dependencies,
         ∃ dep, getTask c3map d = some dep ∧ dep.status = Status.completed)) :=
  ⟨(getReadyTasks_insertion_order c3map).1,
   (getReadyTasks_insertion_order c3map).2 c3low⟩

/-- Claim C4 (corrected, counterexample): terminal statuses are not
immutable. `updateTask` on a completed task overwrites its status and
result in place, and a failed task can be moved back to "in-progress" in
place — the source enforces no transition table. -/
theorem updateTask_mutates_terminal_cex :
    getTask c4map "T1" = some c4done ∧
    c4done.status = Status.completed ∧
    getTask (updateTask c4map "T1" c4upd) "T1"
      = some { c4done with status := Status.failed,
                           result := some "mutated after terminal" } ∧
    getTask (updateTask c4map2 "T2" c4upd2) "T2"
      = some { c4failed with status := Status.inProgress } := by
  decide

/-- Claim C4 (corrected, amended): `updateTask` assigns the given fields
onto the stored task unconditionally — whatever the current status,
including the terminal ones — so the updated task is exactly
`applyUpdates` of the old one. -/
theorem updateTask_unguarded_assign :
    ∀ (m : TaskMap) (id : String) (u : TaskUpdate) (t : Task),
      getTask m id = some t →
      getTask (updateTask m id u) id = some (applyUpdates t u) := by
  intro m id u t h
  have h2 : updateTask m id u = mapSet m id (applyUpdates t u) := by
    unfold updateTask
    rw [show mapGet m id = some t from h]
  rw [h2]
  exact mapGet_mapSet_self m id (applyUpdates t u)

/-- Witness for the amended C4: updating the completed task "T1". -/
theorem updateTask_unguarded_assign_witness :
    getTask c4map "T1" = some c4done ∧
    getTask (updateTask c4map "T1" c4upd) "T1" = some (applyUpdates c4done c4upd) :=
  ⟨by decide, updateTask_unguarded_assign c4map "T1" c4upd c4done (by decide)⟩

/-- Claim C5 (corrected, counterexample): `updateTask` with an id absent
from the graph raises nothing — it is a total function that returns the
graph unchanged, the silent no-op the claim rules out. -/
theorem updateTask_unknown_id_silent_cex :
    getTask c5map "missing" = none ∧
    updateTask c5map "missing" c5upd = c5map := by
  decide

/-- Claim C5 (corrected, amended): when the id is unknown, `updateTask`
silently leaves the task graph exactly unchanged; no `UnknownTask` error
exists in the source. -/
theorem updateTask_unknown_id_noop :
    ∀ (m : TaskMap) (id : String) (u : TaskUpdate),
      getTask m id = none → updateTask m id u = m := by
  intro m id u h
  unfold updateTask
  rw [show mapGet m id = none from h]

/-- Witness for the amended C5 at a concrete graph and absent id. -/
theorem updateTask_unknown_id_noop_witness :
    getTask c5map "nope" = none ∧ updateTask c5map "nope" c5upd = c5map :=
  ⟨by decide, updateTask_unknown_id_noop c5map "nope" c5upd (by decide)⟩

/-- Claim C6 (corrected, counterexample): a task whose events carry no
terminal signal before the timeout ends with status "failed" (the
`DevStatus` enumeration has no "timed_out" member at all) and error
"任務執行超時" — not a status distinct from failed. -/
theorem timeout_yields_failed_cex :
    (executeDevTask c6task [SessionEv.message (some "partial output")]).status
      = DevStatus.failed ∧
    (executeDevTask c6task [SessionEv.message (some "partial output")]).error
      = some "任務執行超時" ∧
    (executeDevTask c6task [SessionEv.message (some "partial output")]).status
      ≠ DevStatus.completed := by
  decide

/-- Claim C6 (corrected, amended): on timeout the task becomes "failed"
with error "任務執行超時" (there is no timed_out status), and the lane is
not aborted: the lane loop executes every queued task — each entry of the
queue yields its own `executeDevTask` result, and the output has one
result per queued task. Lanes are independent `executeTasksInSession`
calls joined by `Promise.all`, so one lane's timeout cannot affect
another. -/
theorem lane_timeout_failed_and_continues :
    ∀ ps : List (DevelopmentTask × List SessionEv),
      (executeTasksInSession ps).length = ps.length ∧
      ∀ (t : DevelopmentTask) (evs : List SessionEv), (t, evs) ∈ ps →
        executeDevTask t evs ∈ executeTasksInSession ps ∧
        (evs.all (fun e => !isTerminalEv e) = true →
          (executeDevTask t evs).status = DevStatus.failed ∧
          (executeDevTask t evs).error = some "任務執行超時") := by
  intro ps
  constructor
  · simp [executeTasksInSession]
  · intro t evs hmem
    constructor
    · exact List.mem_map_of_mem _ hmem
    · intro hall
      have hp := taskPromiseFrom_no_terminal evs hall ""
      constructor
      · simp [executeDevTask, hp]
      · simp [executeDevTask, hp]

/-- Witness for the amended C6: a one-task lane whose execution receives
no event fails with the timeout error yet still produces its result. -/
theorem lane_timeout_failed_and_continues_witness :
    (executeTasksInSession c6lane).length = c6lane.length ∧
    executeDevTask c6task [] ∈ executeTasksInSession c6lane ∧
    (executeDevTask c6task []).status = DevStatus.failed ∧
    (executeDevTask c6task []).error = some "任務執行超時" := by
  have h := lane_timeout_failed_and_continues c6lane
  have h2 := h.2 c6task [] (by decide)
  have h3 := h2.2 (by decide)
  exact ⟨h.1, h2.1, h3.1, h3.2⟩

/-- Claim C7 (corrected, counterexample): with reports of 2, then 1, then
0 failures, `runFullTestCycle` stops after the single fix/re-run pass
with 1 failure remaining and `success := false`; it runs the suite only
twice even though a further iteration would reach 0 failures — there is
no iteration bound and no repetition until convergence. -/
theorem runFullTestCycle_single_pass_cex :
    runFullTestCycle c7runs
      = { success := false,
          stats := { totalTests := 3, passed := 2, failed := 1, skipped := 0 } } ∧
    numTestRuns c7runs = 2 ∧
    (c7runs 2).failed = 0 := by
  decide

/-- Claim C7 (corrected, amended): the cycle performs at most one
fix/re-run pass: `runTests` is invoked at most twice; with no initial
failure the first report is final with `success := true`, and with
initial failures the second report is final with
`success := (second report).failed == 0` — on remaining failures the
result is surfaced as `success := false` rather than by any iteration
bound. -/
theorem runFullTestCycle_at_most_one_retry :
    ∀ runs : Nat → TestReport,
      numTestRuns runs ≤ 2 ∧
      ((runs 0).failed = 0 →
        runFullTestCycle runs = { success := true, stats := runs 0 }) ∧
      (0 < (runs 0).failed →
        runFullTestCycle runs
          = { success := (runs 1).failed == 0, stats := runs 1 }) := by
  intro runs
  refine ⟨?_, ?_, ?_⟩
  · unfold numTestRuns
    split <;> omega
  · intro h0
    simp [runFullTestCycle, h0]
  · intro h1
    simp [runFullTestCycle, h1]

/-- Witness for the amended C7 at the concrete report sequence. -/
theorem runFullTestCycle_at_most_one_retry_witness :
    0 < (c7runs 0).failed ∧
    runFullTestCycle c7runs
      = { success := (c7runs 1).failed == 0, stats := c7runs 1 } :=
  ⟨by decide, (runFullTestCycle_at_most_one_retry c7runs).2.2 (by decide)⟩

/-- Claim C8 (corrected, counterexample): `sendAndWait` resolves with the
content of the last message only — on messages "a" then "b" followed by
idle it yields "b", not the concatenation "ab". -/
theorem sendAndWait_last_message_cex :
    sendAndWait [SessionEv.message (some "a"), SessionEv.message (some "b"),
                 SessionEv.idle]
      = Except.ok "b" ∧
    "b" ≠ "a" ++ "b" := by
  constructor
  · rfl
  · decide

/-- Claim C8 (corrected, amended): `sendAndWait` resolves exactly on the
idle event with the content of the *last* message (earlier messages are
overwritten) and rejects with the error message on an error event; the
`runAgent` loop of the marketing-intel file, by contrast, does accumulate
every message (each followed by a newline) and resolves with the trimmed
accumulation on idle. -/
theorem sendAndWait_runAgent_result_semantics :
    ∀ cs : List String,
      sendAndWait (msgEvents cs ++ [SessionEv.idle])
        = Except.ok (cs.getLast?.getD "") ∧
      (∀ e : String,
        sendAndWait (msgEvents cs ++ [SessionEv.errorEv (some e)])
          = Except.error e) ∧
      runAgentRaw (msgEvents cs ++ [SessionEv.idle])
        = some (String.trim (cs.foldl (fun a s => a ++ s ++ "\n") "")) := by
  intro cs
  exact ⟨sendAndWaitFrom_msgs_idle cs "",
         fun e => sendAndWaitFrom_msgs_error cs "" e,
         runAgentFrom_msgs_idle cs ""⟩

/-- Witness for the amended C8 at the two-message event sequence. -/
theorem sendAndWait_runAgent_result_semantics_witness :
    sendAndWait (msgEvents ["a", "b"] ++ [SessionEv.idle])
      = Except.ok ((["a", "b"].getLast?).getD "") :=
  (sendAndWait_runAgent_result_semantics ["a", "b"]).1

/-- Claim C9 (corrected, counterexample): the snapshot does not round-trip
`Date` fields. The in-memory task object holds a `Date` at "startTime";
after stringify and parse the reloaded object holds a string there, so
the reloaded task set is not equal to the in-memory one. -/
theorem log_roundtrip_date_cex :
    hasDateField (taskToJs c9task) "startTime" = true ∧
    hasDateField (roundTrip (taskToJs c9task)) "startTime" = false ∧
    roundTrip (taskToJs c9task) ≠ taskToJs c9task := by
  refine ⟨rfl, rfl, ?_⟩
  intro h
  have h2 := congrArg (fun v => hasDateField v "startTime") h
  exact absurd h2 (by decide)

/-- Claim C9 (corrected, amended): reloading the overwritten snapshot
yields each task unchanged in every field except `startTime`/`endTime`,
which come back as their ISO-8601 strings instead of `Date` values; for a
task with neither timestamp set the round trip is exact. -/
theorem log_roundtrip_up_to_dates :
    ∀ t : Task,
      roundTrip (taskToJs t) = taskToJsLoaded t ∧
      (t.startTime = none → t.endTime = none → taskToJsLoaded t = taskToJs t) := by
  intro t
  constructor
  · obtain ⟨tid, tdesc, tprio, tasg, tst, tdeps, tres, tsT, teT⟩ := t
    rcases tres with _ | r <;> rcases tsT with _ | s <;> rcases teT with _ | e <;>
      simp [roundTrip, taskToJs, taskToJsLoaded, optJsField, jsToJson,
            jsFieldsToJson, jsListToJson, jsonToJs, jsonFieldsToJs,
            jsonListToJs_jsListToJson_str]
  · intro hs he
    simp [taskToJsLoaded, taskToJs, hs, he]

/-- Witness for the amended C9: the round trip is exact on a task with no
timestamp fields. -/
theorem log_roundtrip_up_to_dates_witness :
    c9plain.startTime = none ∧ c9plain.endTime = none ∧
    roundTrip (taskToJs c9plain) = taskToJs c9plain := by
  refine ⟨rfl, rfl, ?_⟩
  have h1 := (log_roundtrip_up_to_dates c9plain).1
  have h2 := (log_roundtrip_up_to_dates c9plain).2 rfl rfl
  rw [h1, h2]

/-- Claim C10 (confirmed): `getProgress()` is a total function; on the
empty task set it returns all-zero counts and percentage 0 (the guard
avoids the division), and on any task set the counts are exactly the
completed/failed filters and, when the set is non-empty, the percentage
is `Math.round(100 * completed / total)` over exact arithmetic. -/
theorem getProgress_total_and_percentage :
    getProgress ([] : TaskMap)
      = { total := 0, completed := 0, failed := 0, percentage := 0 } ∧
    ∀ m : TaskMap,
      (getProgress m).total = (getAllTasks m).length ∧
      (getProgress m).completed
        = ((getAllTasks m).filter
            (fun t => decide (t.status = Status.completed))).length ∧
      (getProgress m).failed
        = ((getAllTasks m).filter
            (fun t => decide (t.status = Status.failed))).length ∧
      (0 < (getAllTasks m).length →
        (getProgress m).percentage
          = mathRound ((100 * (((getAllTasks m).filter
                (fun t => decide (t.status = Status.completed))).length : ℚ))
              / ((getAllTasks m).length : ℚ))) := by
  constructor
  · rfl
  · intro m
    refine ⟨rfl, rfl, rfl, ?_⟩
    intro hpos
    simp only [getProgress]
    rw [if_pos hpos]
    exact congrArg mathRound (by ring)

/-- Witness for C10 on the 3-task graph with 2 completed tasks. -/
theorem getProgress_total_and_percentage_witness :
    0 < (getAllTasks c10map).length ∧
    (getProgress c10map).percentage
      = mathRound ((100 * (((getAllTasks c10map).filter
            (fun t => decide (t.status = Status.completed))).length : ℚ))
          / ((getAllTasks c10map).length : ℚ)) :=
  ⟨by decide, (getProgress_total_and_percentage.2 c10map).2.2.2 (by decide)⟩

end SelfEvolvingPipeline
